import Mathlib

/-!
Shallow embedding of src/background-main.js.

JavaScript values that reach the pairing store are modelled by JsVal.
Object property keys in JavaScript are strings; addPair only ever inserts
decimal representations of integers, and distinct integers have distinct
decimal strings, so the two maps are modelled as association lists with
Int keys.  The one operation that performs a property access with an
arbitrary (possibly non-integer) value, isDesktopTab, is modelled by a
lookup that compares the string form of its argument against the string
form of each stored key, mirroring the string coercion of property access.
Throwing operations return Except String; the thrown message is the
string passed to the Error constructor in the source.
-/

inductive JsVal where
  | undefined : JsVal
  | nullv : JsVal
  | bool : Bool → JsVal
  | int : Int → JsVal
  | str : String → JsVal
  deriving DecidableEq

/-- JavaScript ToBoolean on the modelled values. -/
def truthy : JsVal → Bool
  | .undefined => false
  | .nullv => false
  | .bool b => b
  | .int n => n != 0
  | .str s => s != ""

/-- Number.isInteger succeeds exactly on the int constructor. -/
def asInt : JsVal → Option Int
  | .int n => some n
  | _ => none

def isInteger (v : JsVal) : Bool := (asInt v).isSome

/-- Result of a property read: the stored integer, or undefined. -/
def optToJs : Option Int → JsVal
  | some n => .int n
  | none => .undefined

/-- JavaScript a || b (value-returning). -/
def jsOr (a b : JsVal) : JsVal := if truthy a then a else b

/-- JavaScript a && b (value-returning). -/
def jsAnd (a b : JsVal) : JsVal := if truthy a then b else a

/-- JavaScript !a. -/
def jsNot (a : JsVal) : JsVal := .bool (!truthy a)

/-- JavaScript ToString, as used for property keys. -/
def toKeyString : JsVal → String
  | .undefined => "undefined"
  | .nullv => "null"
  | .bool b => if b then "true" else "false"
  | .int n => toString n
  | .str s => s

/-- Property read obj[k] for an integer key. -/
def getKey (l : List (Int × Int)) (k : Int) : Option Int :=
  match l with
  | [] => none
  | (k1, v1) :: rest => if k1 = k then some v1 else getKey rest k

/-- Property write obj[k] = v for an integer key. -/
def setKey (l : List (Int × Int)) (k v : Int) : List (Int × Int) :=
  match l with
  | [] => [(k, v)]
  | (k1, v1) :: rest => if k1 = k then (k, v) :: rest else (k1, v1) :: setKey rest k v

/-- JavaScript delete obj[k] for an integer key. -/
def delKey (l : List (Int × Int)) (k : Int) : List (Int × Int) :=
  match l with
  | [] => []
  | (k1, v1) :: rest => if k1 = k then delKey rest k else (k1, v1) :: delKey rest k

/-- Property read obj[v] for an arbitrary value: the key string of v is
compared against the string form of each stored integer key. -/
def lookupByKeyString (l : List (Int × Int)) (v : JsVal) : Option Int :=
  match l with
  | [] => none
  | (k, x) :: rest => if toKeyString v = toString k then some x else lookupByKeyString rest v

/-- The MobileDesktopPairings class: two parallel maps. -/
structure MobileDesktopPairings where
  keyedByDesktop : List (Int × Int)
  keyedByMobile : List (Int × Int)
  deriving DecidableEq

deriving instance DecidableEq for Except

/-- The constructor: both maps start empty. -/
def emptyPairings : MobileDesktopPairings := ⟨[], []⟩

/-- The expression keyedByDesktop[tabId] || keyedByMobile[tabId] || false. -/
def corrVal (s : MobileDesktopPairings) (n : Int) : JsVal :=
  jsOr (jsOr (optToJs (getKey s.keyedByDesktop n)) (optToJs (getKey s.keyedByMobile n)))
    (.bool false)

/-- MobileDesktopPairings.addPair: throws when either argument fails
Number.isInteger, otherwise writes both directions. -/
def addPair (s : MobileDesktopPairings) (desktopTabId mobileTabId : JsVal) :
    Except String MobileDesktopPairings :=
  match asInt desktopTabId, asInt mobileTabId with
  | some d, some m =>
      .ok { keyedByDesktop := setKey s.keyedByDesktop d m
            keyedByMobile := setKey s.keyedByMobile m d }
  | _, _ => .error "Tried to insert non-integer into MobileDesktopPairings"

/-- MobileDesktopPairings.getCorrespondingTab. -/
def getCorrespondingTab (s : MobileDesktopPairings) (tabId : JsVal) : Except String JsVal :=
  match asInt tabId with
  | none => .error "Given Tab Id is not an integer"
  | some n => .ok (corrVal s n)

/-- MobileDesktopPairings.contains: !!this.getCorrespondingTab(tabId)
behind its own integer check. -/
def contains (s : MobileDesktopPairings) (tabId : JsVal) : Except String Bool :=
  match asInt tabId with
  | none => .error "Given Tab Id is not an integer"
  | some _ => Except.map truthy (getCorrespondingTab s tabId)

/-- MobileDesktopPairings.removeTabPair: deletes the entry keyed by the
given id from each of the two maps. -/
def removeTabPair (s : MobileDesktopPairings) (eitherTabId : JsVal) :
    Except String MobileDesktopPairings :=
  match asInt eitherTabId with
  | none => .error "Given Tab Id is not an integer"
  | some n =>
      .ok { keyedByDesktop := delKey s.keyedByDesktop n
            keyedByMobile := delKey s.keyedByMobile n }

/-- MobileDesktopPairings.clearPairings. -/
def clearPairings (_s : MobileDesktopPairings) : MobileDesktopPairings := emptyPairings

/-- MobileDesktopPairings.isDesktopTab: !!this._keyedByDesktop[tabId],
with no integer check on the argument. -/
def isDesktopTab (s : MobileDesktopPairings) (tabId : JsVal) : Bool :=
  truthy (optToJs (lookupByKeyString s.keyedByDesktop tabId))

/-- The module-level session state: desktopWindowId, mobileWindowId,
newTabBeingCreated, focusedWindowId. -/
structure SessionState where
  desktopWindowId : JsVal
  mobileWindowId : JsVal
  newTabBeingCreated : Bool
  focusedWindowId : JsVal
  deriving DecidableEq

/-- State at script load: both window ids and the focused window are
undefined, the guard is false. -/
def initialSessionState : SessionState := ⟨.undefined, .undefined, false, .undefined⟩

/-- Synchronous part of the chrome.tabs.onCreated listener.  The third
component is the tab-creation command issued, if any: the window id
passed to chrome.tabs.create.  Pair registration and the guard reset
happen only in the asynchronous callbacks and are not part of this
synchronous step. -/
def tabsOnCreated (st : SessionState) (s : MobileDesktopPairings)
    (newTabWindowId _newTabId _newTabUrl : JsVal) :
    SessionState × MobileDesktopPairings × Option JsVal :=
  if !st.newTabBeingCreated && (newTabWindowId == st.desktopWindowId) then
    ({ st with newTabBeingCreated := true }, s, some st.mobileWindowId)
  else if !st.newTabBeingCreated && (newTabWindowId == st.mobileWindowId) then
    ({ st with newTabBeingCreated := true }, s, some st.desktopWindowId)
  else
    (st, s, none)

/-- The chrome.tabs.onUpdated listener.  Returns the navigation command
issued, if any: the target tab value and the url passed to
chrome.tabs.update. -/
def tabsOnUpdated (st : SessionState) (s : MobileDesktopPairings)
    (tabId changeUrl tabWindowId : JsVal) : Except String (Option (JsVal × JsVal)) :=
  match getCorrespondingTab s tabId with
  | .error e => .error e
  | .ok correspondingTab =>
      if truthy changeUrl && truthy correspondingTab && (tabWindowId == st.focusedWindowId) then
        .ok (some (correspondingTab, changeUrl))
      else
        .ok none

/-- The chrome.windows.onRemoved listener. -/
def windowsOnRemoved (st : SessionState) (s : MobileDesktopPairings) (windowId : JsVal) :
    SessionState × MobileDesktopPairings :=
  if windowId == st.mobileWindowId then
    (initialSessionState, clearPairings s)
  else
    (st, s)

/-- The chrome.runtime.onMessage listener.  Returns the tab the message
is relayed to by chrome.tabs.sendMessage, or none when only the log line
runs.  scrollPercentage is the value of message.scrollPercentage
(undefined when the message carries no scroll payload); scrollLock is
the value of getScrollLock(). -/
def onMessageRelay (s : MobileDesktopPairings) (senderTabId scrollPercentage : JsVal)
    (scrollLock : String) : Except String (Option JsVal) :=
  match getCorrespondingTab s senderTabId with
  | .error e => .error e
  | .ok correspondingTabId =>
      if truthy (jsAnd (jsNot (jsAnd scrollPercentage (.bool (scrollLock != "on"))))
          correspondingTabId) then
        .ok (some correspondingTabId)
      else
        .ok none

/-- A request header. -/
structure Header where
  name : String
  value : String
  deriving DecidableEq

/-- The for-loop of the onBeforeSendHeaders listener: replace the value
of the first header whose name is exactly User-Agent, then break. -/
def rewriteUA (deviceUa : String) : List Header → List Header
  | [] => []
  | h :: rest =>
      if h.name = "User-Agent" then { h with value := deviceUa } :: rest
      else h :: rewriteUA deviceUa rest

/-- The chrome.webRequest.onBeforeSendHeaders listener.  deviceUa is the
ua field of getDevice(). -/
def onBeforeSendHeaders (s : MobileDesktopPairings) (tabId : JsVal) (deviceUa : String)
    (requestHeaders : List Header) : Except String (List Header) :=
  match contains s tabId with
  | .error e => .error e
  | .ok c =>
      if c && !(isDesktopTab s tabId) then
        .ok (rewriteUA deviceUa requestHeaders)
      else
        .ok requestHeaders

/-- The list of pairs recorded in the store: a desktop-map entry d to m
records the pair (d, m), and a mobile-map entry m to d records the same
pair (d, m). -/
def storePairs (s : MobileDesktopPairings) : List (Int × Int) :=
  s.keyedByDesktop ++ s.keyedByMobile.map (fun kv => (kv.2, kv.1))

/-- Two pairs share an identifier. -/
def sharesId (p q : Int × Int) : Prop :=
  p.1 = q.1 ∨ p.1 = q.2 ∨ p.2 = q.1 ∨ p.2 = q.2

/-- Every identifier appears in at most one pair: pairs sharing an
identifier are equal. -/
def oneToOne (s : MobileDesktopPairings) : Prop :=
  ∀ p ∈ storePairs s, ∀ q ∈ storePairs s, sharesId p q → p = q

/-- The identifier occurs nowhere in the store, on either side of any
recorded pair. -/
def idFresh (s : MobileDesktopPairings) (n : Int) : Prop :=
  ∀ p ∈ storePairs s, n ≠ p.1 ∧ n ≠ p.2

/-- Stores reachable from the empty store by addPair calls whose two
arguments are integers occurring nowhere in the store, removeTabPair
calls with integer argument, and clearPairings calls. -/
inductive ReachableFresh : MobileDesktopPairings → Prop where
  | empty : ReachableFresh emptyPairings
  | add {s s2 : MobileDesktopPairings} {a b : Int} (hs : ReachableFresh s)
      (hfa : idFresh s a) (hfb : idFresh s b)
      (hadd : addPair s (.int a) (.int b) = .ok s2) : ReachableFresh s2
  | remove {s s2 : MobileDesktopPairings} {n : Int} (hs : ReachableFresh s)
      (hrem : removeTabPair s (.int n) = .ok s2) : ReachableFresh s2
  | clear {s : MobileDesktopPairings} (hs : ReachableFresh s) :
      ReachableFresh (clearPairings s)

instance (p q : Int × Int) : Decidable (sharesId p q) := by
  unfold sharesId
  infer_instance

instance (s : MobileDesktopPairings) : Decidable (oneToOne s) := by
  unfold oneToOne
  infer_instance

instance (s : MobileDesktopPairings) (n : Int) : Decidable (idFresh s n) := by
  unfold idFresh
  infer_instance

/-- Store holding the single pair 1 paired with 2, as produced by
addPair on the empty store. -/
def pairedStore : MobileDesktopPairings := ⟨[(1, 2)], [(2, 1)]⟩

/-- Session state of an active session: desktop window 1, mobile
window 2, guard clear, window 1 focused. -/
def activeSession : SessionState := ⟨.int 1, .int 2, false, .int 1⟩

/-! Helper lemmas shared by the claim theorems. -/

theorem getKey_setKey_self (l : List (Int × Int)) (k v : Int) :
    getKey (setKey l k v) k = some v := by
  induction l with
  | nil => simp [setKey, getKey]
  | cons head rest ih =>
      obtain ⟨k1, v1⟩ := head
      by_cases h : k1 = k
      · simp [setKey, h, getKey]
      · simp [setKey, h, getKey, ih]

theorem getKey_setKey_other (l : List (Int × Int)) (k v k2 : Int) (h : k2 ≠ k) :
    getKey (setKey l k v) k2 = getKey l k2 := by
  have hk : ¬ k = k2 := fun he => h he.symm
  induction l with
  | nil => simp [setKey, getKey, hk]
  | cons head rest ih =>
      obtain ⟨k1, v1⟩ := head
      by_cases h1 : k1 = k
      · subst h1
        simp [setKey, getKey, hk]
      · by_cases h2 : k1 = k2
        · simp [setKey, getKey, h1, h2, h]
        · simp [setKey, getKey, h1, h2, ih]

theorem mem_setKey {l : List (Int × Int)} {k v : Int} {p : Int × Int}
    (hp : p ∈ setKey l k v) : p = (k, v) ∨ p ∈ l := by
  induction l with
  | nil => simpa [setKey] using hp
  | cons head rest ih =>
      obtain ⟨k1, v1⟩ := head
      by_cases h : k1 = k
      · simp only [setKey, if_pos h, List.mem_cons] at hp
        rcases hp with hp | hp
        · exact Or.inl hp
        · exact Or.inr (List.mem_cons_of_mem _ hp)
      · simp only [setKey, if_neg h, List.mem_cons] at hp
        rcases hp with hp | hp
        · exact Or.inr (by simp [hp])
        · rcases ih hp with hp | hp
          · exact Or.inl hp
          · exact Or.inr (List.mem_cons_of_mem _ hp)

theorem mem_delKey {l : List (Int × Int)} {k : Int} {p : Int × Int}
    (hp : p ∈ delKey l k) : p ∈ l := by
  induction l with
  | nil => simp [delKey] at hp
  | cons head rest ih =>
      obtain ⟨k1, v1⟩ := head
      by_cases h : k1 = k
      · simp only [delKey, if_pos h] at hp
        exact List.mem_cons_of_mem _ (ih hp)
      · simp only [delKey, if_neg h, List.mem_cons] at hp
        rcases hp with hp | hp
        · exact List.mem_cons.mpr (Or.inl hp)
        · exact List.mem_cons_of_mem _ (ih hp)

theorem lookupByKeyString_eq_none (l : List (Int × Int)) (v : JsVal)
    (h : ∀ kv ∈ l, toKeyString v ≠ toString kv.1) : lookupByKeyString l v = none := by
  induction l with
  | nil => rfl
  | cons head rest ih =>
      obtain ⟨k, x⟩ := head
      have hk : toKeyString v ≠ toString k := h (k, x) (List.mem_cons_self _ _)
      simp only [lookupByKeyString, if_neg hk]
      exact ih fun kv hkv => h kv (List.mem_cons_of_mem _ hkv)

theorem getCorrespondingTab_int (s : MobileDesktopPairings) (n : Int) :
    getCorrespondingTab s (.int n) = .ok (corrVal s n) := rfl

theorem contains_int (s : MobileDesktopPairings) (n : Int) :
    contains s (.int n) = .ok (truthy (corrVal s n)) := rfl

theorem addPair_int (s : MobileDesktopPairings) (a b : Int) :
    addPair s (.int a) (.int b) =
      .ok ⟨setKey s.keyedByDesktop a b, setKey s.keyedByMobile b a⟩ := rfl

theorem removeTabPair_int (s : MobileDesktopPairings) (n : Int) :
    removeTabPair s (.int n) =
      .ok ⟨delKey s.keyedByDesktop n, delKey s.keyedByMobile n⟩ := rfl

theorem tabsOnUpdated_int (st : SessionState) (s : MobileDesktopPairings)
    (n : Int) (url wid : JsVal) :
    tabsOnUpdated st s (.int n) url wid =
      if truthy url && truthy (corrVal s n) && (wid == st.focusedWindowId) then
        .ok (some (corrVal s n, url))
      else
        .ok none := rfl

theorem onBeforeSendHeaders_int (s : MobileDesktopPairings) (n : Int) (ua : String)
    (hs : List Header) :
    onBeforeSendHeaders s (.int n) ua hs =
      if truthy (corrVal s n) && !(isDesktopTab s (.int n)) then
        .ok (rewriteUA ua hs)
      else
        .ok hs := rfl

theorem rewriteUA_of_no_ua (ua : String) (l : List Header)
    (h : ∀ h2 ∈ l, h2.name ≠ "User-Agent") : rewriteUA ua l = l := by
  induction l with
  | nil => rfl
  | cons head rest ih =>
      have hh : head.name ≠ "User-Agent" := h head (List.mem_cons_self _ _)
      simp only [rewriteUA, if_neg hh]
      rw [ih fun h2 hm => h h2 (List.mem_cons_of_mem _ hm)]

theorem rewriteUA_first (ua : String) (pre : List Header) (h : Header) (post : List Header)
    (hpre : ∀ h2 ∈ pre, h2.name ≠ "User-Agent") (hh : h.name = "User-Agent") :
    rewriteUA ua (pre ++ h :: post) = pre ++ { h with value := ua } :: post := by
  induction pre with
  | nil => simp [rewriteUA, hh]
  | cons head rest ih =>
      have hhead : head.name ≠ "User-Agent" := hpre head (List.mem_cons_self _ _)
      have ih2 := ih fun h2 hm => hpre h2 (List.mem_cons_of_mem _ hm)
      rw [List.cons_append, rewriteUA, if_neg hhead, ih2, List.cons_append]

/-! Claim theorems. -/

/-- C1: evaluation of the store operations at the failing input.  After
addPair(1,2), removeTabPair(1) deletes only the entries keyed by 1 and
leaves the reverse entry 2 to 1 in the mobile map, so contains(2) is
still true, although the claim (and the doc comment of removeTabPair,
which says it removes a pair given either member id) requires both
contains(1) and contains(2) to be false.  The last conjunct shows the
no-op part of the claim: removing an unknown id changes nothing and is
not an error. -/
theorem removeTabPair_leaves_reverse_entry :
    addPair emptyPairings (.int 1) (.int 2) = .ok pairedStore ∧
    removeTabPair pairedStore (.int 1) = .ok ⟨[], [(2, 1)]⟩ ∧
    contains ⟨[], [(2, 1)]⟩ (.int 1) = .ok false ∧
    contains ⟨[], [(2, 1)]⟩ (.int 2) = .ok true ∧
    removeTabPair emptyPairings (.int 7) = .ok emptyPairings := by decide

/-- C2: evaluation of the message relay at the failing input.  With the
pair 1 paired with 2 in the store, a scroll-percentage message from tab 1
IS relayed when scrollLock is "on" and is NOT relayed when it is "off" -
the exact opposite of the claim (and of the listener comment, which says
scrolling messages are stubbed out when scrolling is locked).  Messages
without a scroll payload are relayed in both modes. -/
theorem onMessageRelay_suppression_inverted :
    onMessageRelay pairedStore (.int 1) (.int 50) "on" = .ok (some (.int 2)) ∧
    onMessageRelay pairedStore (.int 1) (.int 50) "off" = .ok none ∧
    onMessageRelay pairedStore (.int 1) .undefined "on" = .ok (some (.int 2)) ∧
    onMessageRelay pairedStore (.int 1) .undefined "off" = .ok (some (.int 2)) := by decide

/-- C5: when the guard is set, or the event window matches neither
tracked window, the tab-created handler issues no creation command and
leaves session state and store unchanged; and any state in which the
handler has just issued a creation command ignores every further
tab-created event, so a programmatic creation cannot trigger a second
one. -/
theorem tabsOnCreated_guard_behavior (st : SessionState) (s : MobileDesktopPairings)
    (wid tid url : JsVal) :
    ((st.newTabBeingCreated = true ∨ (wid ≠ st.desktopWindowId ∧ wid ≠ st.mobileWindowId)) →
      tabsOnCreated st s wid tid url = (st, s, none)) ∧
    (∀ st2 s2 c, tabsOnCreated st s wid tid url = (st2, s2, some c) →
      ∀ wid2 tid2 url2, tabsOnCreated st2 s2 wid2 tid2 url2 = (st2, s2, none)) := by
  have hnoop : ∀ (st3 : SessionState) (s3 : MobileDesktopPairings) (w3 t3 u3 : JsVal),
      st3.newTabBeingCreated = true → tabsOnCreated st3 s3 w3 t3 u3 = (st3, s3, none) := by
    intro st3 s3 w3 t3 u3 hg
    unfold tabsOnCreated
    rw [hg]
    simp
  constructor
  · rintro (hg | ⟨hd, hm⟩)
    · exact hnoop st s wid tid url hg
    · have hd2 : (wid == st.desktopWindowId) = false := beq_eq_false_iff_ne.mpr hd
      have hm2 : (wid == st.mobileWindowId) = false := beq_eq_false_iff_ne.mpr hm
      unfold tabsOnCreated
      rw [hd2, hm2]
      simp
  · intro st2 s2 c heq wid2 tid2 url2
    have hst2 : st2.newTabBeingCreated = true := by
      unfold tabsOnCreated at heq
      split at heq
      · simp only [Prod.mk.injEq] at heq
        rw [← heq.1]
      · split at heq
        · simp only [Prod.mk.injEq] at heq
          rw [← heq.1]
        · simp only [Prod.mk.injEq] at heq
          exact absurd heq.2.2 (by simp)
    exact hnoop st2 s2 wid2 tid2 url2 hst2

/-- C5 witness: with desktop window 1 and mobile window 2 tracked, an
event in unrelated window 7 is ignored; and after the state in which a
command was just issued (guard set), an event in the mobile window is
also ignored. -/
theorem tabsOnCreated_guard_behavior_witness :
    tabsOnCreated activeSession emptyPairings (.int 7) (.int 9) (.str "u") =
      (activeSession, emptyPairings, none) ∧
    tabsOnCreated ⟨.int 1, .int 2, true, .int 1⟩ emptyPairings (.int 1) (.int 10) (.str "v") =
      (⟨.int 1, .int 2, true, .int 1⟩, emptyPairings, none) :=
  ⟨(tabsOnCreated_guard_behavior activeSession emptyPairings (.int 7) (.int 9) (.str "u")).1
      (Or.inr ⟨by decide, by decide⟩),
    (tabsOnCreated_guard_behavior activeSession emptyPairings (.int 1) (.int 9) (.str "u")).2
      ⟨.int 1, .int 2, true, .int 1⟩ emptyPairings (.int 2) (by decide) (.int 1) (.int 10)
      (.str "v")⟩

/-- C6: addPair with any non-integer argument throws the
InvalidIdentifier error and produces no new store, so the store the
caller holds is exactly the store before the call. -/
theorem addPair_non_integer_rejected (s : MobileDesktopPairings) (d m : JsVal)
    (h : isInteger d = false ∨ isInteger m = false) :
    addPair s d m = .error "Tried to insert non-integer into MobileDesktopPairings" ∧
    ∀ s2, addPair s d m ≠ .ok s2 := by
  have he : addPair s d m = .error "Tried to insert non-integer into MobileDesktopPairings" := by
    cases d <;> cases m <;> first
      | rfl
      | simp [isInteger, asInt] at h
  refine ⟨he, fun s2 hok => ?_⟩
  rw [he] at hok
  exact Except.noConfusion hok

/-- C6 witness: a string first argument is rejected. -/
theorem addPair_non_integer_rejected_witness :
    addPair pairedStore (.str "5") (.int 3) =
      .error "Tried to insert non-integer into MobileDesktopPairings" :=
  (addPair_non_integer_rejected pairedStore (.str "5") (.int 3) (Or.inl rfl)).1

/-- C8: a window-removed event whose id equals the tracked mobile window
resets the session state to its initial values and empties the pairing
store, after which contains is false for every integer id. -/
theorem windowsOnRemoved_mobile_resets (st : SessionState) (s : MobileDesktopPairings)
    (wid : JsVal) (h : wid = st.mobileWindowId) :
    windowsOnRemoved st s wid = (initialSessionState, emptyPairings) ∧
    ∀ n : Int, contains emptyPairings (.int n) = .ok false := by
  subst h
  refine ⟨?_, fun n => rfl⟩
  simp [windowsOnRemoved, clearPairings]

/-- C8 witness: closing mobile window 2 of the active session with the
pair 1 paired with 2 registered resets everything, and the id 5 (like
every other id) is no longer contained. -/
theorem windowsOnRemoved_mobile_resets_witness :
    windowsOnRemoved activeSession pairedStore (.int 2) = (initialSessionState, emptyPairings) ∧
    contains emptyPairings (.int 5) = .ok false :=
  ⟨(windowsOnRemoved_mobile_resets activeSession pairedStore (.int 2) rfl).1,
    (windowsOnRemoved_mobile_resets activeSession pairedStore (.int 2) rfl).2 5⟩

/-- C10: isDesktopTab performs no integer check: it is a total Bool
function, returning false whenever no stored desktop-side key has the
key string of the argument - while addPair, getCorrespondingTab,
contains and removeTabPair all throw on the same non-integer input. -/
theorem isDesktopTab_never_raises (s : MobileDesktopPairings) (v : JsVal) :
    (isInteger v = false →
      addPair s v v = .error "Tried to insert non-integer into MobileDesktopPairings" ∧
      getCorrespondingTab s v = .error "Given Tab Id is not an integer" ∧
      contains s v = .error "Given Tab Id is not an integer" ∧
      removeTabPair s v = .error "Given Tab Id is not an integer") ∧
    ((∀ kv ∈ s.keyedByDesktop, toKeyString v ≠ toString kv.1) → isDesktopTab s v = false) := by
  constructor
  · intro hv
    cases v with
    | int n => simp [isInteger, asInt] at hv
    | undefined => exact ⟨rfl, rfl, rfl, rfl⟩
    | nullv => exact ⟨rfl, rfl, rfl, rfl⟩
    | bool b => exact ⟨rfl, rfl, rfl, rfl⟩
    | str s2 => exact ⟨rfl, rfl, rfl, rfl⟩
  · intro hrec
    unfold isDesktopTab
    rw [lookupByKeyString_eq_none s.keyedByDesktop v hrec]
    rfl

/-- C10 witness: on the store with the pair 1 paired with 2, the
string input x makes the four checked operations throw, while
isDesktopTab returns false. -/
theorem isDesktopTab_never_raises_witness :
    (addPair pairedStore (.str "x") (.str "x") =
        .error "Tried to insert non-integer into MobileDesktopPairings" ∧
      getCorrespondingTab pairedStore (.str "x") = .error "Given Tab Id is not an integer" ∧
      contains pairedStore (.str "x") = .error "Given Tab Id is not an integer" ∧
      removeTabPair pairedStore (.str "x") = .error "Given Tab Id is not an integer") ∧
    isDesktopTab pairedStore (.str "x") = false :=
  ⟨(isDesktopTab_never_raises pairedStore (.str "x")).1 rfl,
    (isDesktopTab_never_raises pairedStore (.str "x")).2 (by decide)⟩

/-- C3 counterexample: the claim fails as stated, in two ways.  First,
after addPair(1,0) on the empty store, getCorrespondingTab(1) is the
falsy sentinel false rather than 0, and contains(1) is false rather
than true, because a paired id of 0 is falsy.  Second, after
addPair(2,3) and then addPair(1,2), getCorrespondingTab(2) is 3, not 1:
the stale desktop-direction entry for 2 shadows the new pair. -/
theorem addPair_lookup_counterexample :
    (addPair emptyPairings (.int 1) (.int 0) = .ok ⟨[(1, 0)], [(0, 1)]⟩ ∧
      getCorrespondingTab ⟨[(1, 0)], [(0, 1)]⟩ (.int 1) = .ok (.bool false) ∧
      contains ⟨[(1, 0)], [(0, 1)]⟩ (.int 1) = .ok false) ∧
    (addPair emptyPairings (.int 2) (.int 3) = .ok ⟨[(2, 3)], [(3, 2)]⟩ ∧
      addPair ⟨[(2, 3)], [(3, 2)]⟩ (.int 1) (.int 2) =
        .ok ⟨[(2, 3), (1, 2)], [(3, 2), (2, 1)]⟩ ∧
      getCorrespondingTab ⟨[(2, 3), (1, 2)], [(3, 2), (2, 1)]⟩ (.int 2) = .ok (.int 3)) := by
  decide

/-- C3 (amended): for all nonzero integers a and b, after addPair(a,b)
on any store whose desktop-direction map has no entry for b (when b
differs from a), getCorrespondingTab(a) is b, getCorrespondingTab(b) is
a, and contains(a), contains(b) are both true. -/
theorem addPair_lookup_after_fresh_nonzero (s s2 : MobileDesktopPairings) (a b : Int)
    (ha : a ≠ 0) (hb : b ≠ 0) (hfresh : b ≠ a → getKey s.keyedByDesktop b = none)
    (hadd : addPair s (.int a) (.int b) = .ok s2) :
    getCorrespondingTab s2 (.int a) = .ok (.int b) ∧
    getCorrespondingTab s2 (.int b) = .ok (.int a) ∧
    contains s2 (.int a) = .ok true ∧ contains s2 (.int b) = .ok true := by
  rw [addPair_int] at hadd
  have hs2 : s2 = ⟨setKey s.keyedByDesktop a b, setKey s.keyedByMobile b a⟩ :=
    (Except.ok.inj hadd).symm
  subst hs2
  have hta : truthy (.int a) = true := by simp [truthy, ha]
  have htb : truthy (.int b) = true := by simp [truthy, hb]
  have htu : truthy JsVal.undefined = false := rfl
  have hga : corrVal ⟨setKey s.keyedByDesktop a b, setKey s.keyedByMobile b a⟩ a = .int b := by
    simp [corrVal, getKey_setKey_self, optToJs, jsOr, htb]
  have hgb : corrVal ⟨setKey s.keyedByDesktop a b, setKey s.keyedByMobile b a⟩ b = .int a := by
    by_cases hba : b = a
    · subst hba
      simp [corrVal, getKey_setKey_self, optToJs, jsOr, htb]
    · have h1 : getKey (setKey s.keyedByDesktop a b) b = none := by
        rw [getKey_setKey_other _ _ _ _ hba]
        exact hfresh hba
      simp [corrVal, h1, getKey_setKey_self, optToJs, jsOr, hta, htu]
  refine ⟨?_, ?_, ?_, ?_⟩
  · rw [getCorrespondingTab_int, hga]
  · rw [getCorrespondingTab_int, hgb]
  · rw [contains_int, hga, htb]
  · rw [contains_int, hgb, hta]

/-- C3 witness: addPair(1,2) on the empty store, then both lookups and
both membership checks succeed. -/
theorem addPair_lookup_after_fresh_nonzero_witness :
    getCorrespondingTab pairedStore (.int 1) = .ok (.int 2) ∧
    getCorrespondingTab pairedStore (.int 2) = .ok (.int 1) ∧
    contains pairedStore (.int 1) = .ok true ∧ contains pairedStore (.int 2) = .ok true :=
  addPair_lookup_after_fresh_nonzero emptyPairings pairedStore 1 2 (by decide) (by decide)
    (fun _ => rfl) rfl

/-- C7: for a tab-updated event with an integer tab id and a truthy new
url, a navigation command is issued if and only if the tab has a pair
and the event window equals the recorded focused window; any issued
command targets the corresponding tab with exactly that url. -/
theorem tabsOnUpdated_navigation_iff (st : SessionState) (s : MobileDesktopPairings)
    (n : Int) (url wid : JsVal) (r : Option (JsVal × JsVal)) (hurl : truthy url = true)
    (hr : tabsOnUpdated st s (.int n) url wid = .ok r) :
    (r.isSome = true ↔ (contains s (.int n) = .ok true ∧ wid = st.focusedWindowId)) ∧
    (∀ t u, r = some (t, u) → getCorrespondingTab s (.int n) = .ok t ∧ u = url) := by
  rw [tabsOnUpdated_int, hurl] at hr
  by_cases hc : truthy (corrVal s n) = true
  · rw [hc] at hr
    by_cases hw : wid = st.focusedWindowId
    · rw [beq_iff_eq.mpr hw] at hr
      simp only [Bool.and_self, if_true] at hr
      have hr2 := Except.ok.inj hr
      subst hr2
      refine ⟨⟨fun _ => ⟨by rw [contains_int, hc], hw⟩, fun _ => rfl⟩, ?_⟩
      intro t u ht
      have ht2 := Option.some.inj ht
      have ht3 : t = corrVal s n := (congrArg Prod.fst ht2).symm
      exact ⟨by rw [getCorrespondingTab_int, ht3], (congrArg Prod.snd ht2).symm⟩
    · rw [beq_eq_false_iff_ne.mpr hw] at hr
      simp only [Bool.and_false, if_false] at hr
      have hr2 := Except.ok.inj hr
      subst hr2
      refine ⟨⟨fun h2 => absurd h2 (by simp), fun h2 => absurd h2.2 hw⟩, ?_⟩
      intro t u ht
      exact absurd ht (by simp)
  · have hcb : truthy (corrVal s n) = false := by
      cases h2 : truthy (corrVal s n)
      · rfl
      · exact absurd h2 hc
    rw [hcb] at hr
    simp only [Bool.true_and, Bool.false_and, if_false] at hr
    have hr2 := Except.ok.inj hr
    subst hr2
    refine ⟨⟨fun h2 => absurd h2 (by simp), fun h2 => ?_⟩, ?_⟩
    · have h3 := h2.1
      rw [contains_int, hcb] at h3
      exact absurd (Except.ok.inj h3) (by simp)
    · intro t u ht
      exact absurd ht (by simp)

/-- C7 witness: with the pair 1 paired with 2 and window 1 focused, a
url change on tab 1 in window 1 issues a command, matching the
right-hand side of the equivalence. -/
theorem tabsOnUpdated_navigation_iff_witness :
    (some (JsVal.int 2, JsVal.str "https://x.com") : Option (JsVal × JsVal)).isSome = true ↔
      (contains pairedStore (.int 1) = .ok true ∧
        JsVal.int 1 = activeSession.focusedWindowId) :=
  (tabsOnUpdated_navigation_iff activeSession pairedStore 1 (.str "https://x.com") (.int 1)
      (some (.int 2, .str "https://x.com")) (by decide) (by decide)).1

/-- C9: for a request from a known mobile-side tab (contains true and
isDesktopTab false), exactly the first header whose name is the exact
case-sensitive string User-Agent has its value replaced with the device
user-agent string and every other header is unchanged (including when
no header matches); for a desktop-side tab, or a tab with no pair, the
header list passes through unchanged. -/
theorem onBeforeSendHeaders_rewrite_spec (s : MobileDesktopPairings) (n : Int) (ua : String) :
    ((contains s (.int n) = .ok true ∧ isDesktopTab s (.int n) = false) →
      (∀ pre h post, (∀ h2 ∈ pre, h2.name ≠ "User-Agent") → h.name = "User-Agent" →
        onBeforeSendHeaders s (.int n) ua (pre ++ h :: post) =
          .ok (pre ++ { h with value := ua } :: post)) ∧
      (∀ hs : List Header, (∀ h2 ∈ hs, h2.name ≠ "User-Agent") →
        onBeforeSendHeaders s (.int n) ua hs = .ok hs)) ∧
    (∀ hs : List Header, isDesktopTab s (.int n) = true →
      onBeforeSendHeaders s (.int n) ua hs = .ok hs) ∧
    (∀ hs : List Header, contains s (.int n) = .ok false →
      onBeforeSendHeaders s (.int n) ua hs = .ok hs) := by
  refine ⟨fun hmob => ?_, fun hs hd => ?_, fun hs hc => ?_⟩
  · have hct : truthy (corrVal s n) = true := by
      have h3 := hmob.1
      rw [contains_int] at h3
      exact Except.ok.inj h3
    constructor
    · intro pre h post hpre hh
      have h1 : onBeforeSendHeaders s (.int n) ua (pre ++ h :: post) =
          .ok (rewriteUA ua (pre ++ h :: post)) := by
        rw [onBeforeSendHeaders_int, hct, hmob.2]
        rfl
      rw [h1, rewriteUA_first ua pre h post hpre hh]
    · intro hs2 hnua
      have h1 : onBeforeSendHeaders s (.int n) ua hs2 = .ok (rewriteUA ua hs2) := by
        rw [onBeforeSendHeaders_int, hct, hmob.2]
        rfl
      rw [h1, rewriteUA_of_no_ua ua hs2 hnua]
  · rw [onBeforeSendHeaders_int, hd]
    simp
  · have hcf : truthy (corrVal s n) = false := by
      rw [contains_int] at hc
      exact Except.ok.inj hc
    rw [onBeforeSendHeaders_int, hcf]
    simp

/-- C9 witness: tab 2 is mobile-side in the store with the pair 1
paired with 2, so only the first of two User-Agent headers is
rewritten; tab 1 is desktop-side, so its headers pass through. -/
theorem onBeforeSendHeaders_rewrite_spec_witness :
    onBeforeSendHeaders pairedStore (.int 2) "EmulatedUA"
        [⟨"Accept", "a"⟩, ⟨"User-Agent", "old"⟩, ⟨"User-Agent", "later"⟩] =
      .ok [⟨"Accept", "a"⟩, ⟨"User-Agent", "EmulatedUA"⟩, ⟨"User-Agent", "later"⟩] ∧
    onBeforeSendHeaders pairedStore (.int 1) "EmulatedUA" [⟨"User-Agent", "old"⟩] =
      .ok [⟨"User-Agent", "old"⟩] :=
  ⟨((onBeforeSendHeaders_rewrite_spec pairedStore 2 "EmulatedUA").1
        ⟨by decide, by decide⟩).1 [⟨"Accept", "a"⟩] ⟨"User-Agent", "old"⟩
      [⟨"User-Agent", "later"⟩] (by decide) rfl,
    (onBeforeSendHeaders_rewrite_spec pairedStore 1 "EmulatedUA").2.1 [⟨"User-Agent", "old"⟩]
      (by decide)⟩

/-- C4 counterexample: the claim fails as stated.  Starting from the
empty store, addPair(1,2) then addPair(1,3) yields a reachable store
that violates the 1:1 invariant: the stale mobile-direction entry for 2
survives the overwrite, so 2 still participates in a pair (contains(2)
is true) although the claim says b no longer participates in any
pair. -/
theorem addPair_overwrite_counterexample :
    addPair emptyPairings (.int 1) (.int 2) = .ok pairedStore ∧
    addPair pairedStore (.int 1) (.int 3) = .ok ⟨[(1, 3)], [(2, 1), (3, 1)]⟩ ∧
    ¬ oneToOne ⟨[(1, 3)], [(2, 1), (3, 1)]⟩ ∧
    contains ⟨[(1, 3)], [(2, 1), (3, 1)]⟩ (.int 2) = .ok true := by decide

theorem oneToOne_addPair_fresh {s s2 : MobileDesktopPairings} {a b : Int}
    (h1 : oneToOne s) (hfa : idFresh s a) (hfb : idFresh s b)
    (hadd : addPair s (.int a) (.int b) = .ok s2) : oneToOne s2 := by
  rw [addPair_int] at hadd
  have hs2 : s2 = ⟨setKey s.keyedByDesktop a b, setKey s.keyedByMobile b a⟩ :=
    (Except.ok.inj hadd).symm
  subst hs2
  have hmem : ∀ p ∈ storePairs (⟨setKey s.keyedByDesktop a b, setKey s.keyedByMobile b a⟩ :
      MobileDesktopPairings), p = (a, b) ∨ p ∈ storePairs s := by
    intro p hp
    unfold storePairs at hp
    rcases List.mem_append.mp hp with hp | hp
    · rcases mem_setKey hp with hp | hp
      · exact Or.inl hp
      · exact Or.inr (List.mem_append.mpr (Or.inl hp))
    · rcases List.mem_map.mp hp with ⟨q, hq, hqe⟩
      rcases mem_setKey hq with hq2 | hq2
      · subst hq2
        exact Or.inl hqe.symm
      · exact Or.inr (List.mem_append.mpr (Or.inr (List.mem_map.mpr ⟨q, hq2, hqe⟩)))
  intro p hp q hq hshare
  rcases hmem p hp with rfl | hp2
  · rcases hmem q hq with rfl | hq2
    · rfl
    · exfalso
      rcases hshare with h2 | h2 | h2 | h2
      · exact (hfa q hq2).1 h2
      · exact (hfa q hq2).2 h2
      · exact (hfb q hq2).1 h2
      · exact (hfb q hq2).2 h2
  · rcases hmem q hq with rfl | hq2
    · exfalso
      rcases hshare with h2 | h2 | h2 | h2
      · exact (hfa p hp2).1 h2.symm
      · exact (hfb p hp2).1 h2.symm
      · exact (hfa p hp2).2 h2.symm
      · exact (hfb p hp2).2 h2.symm
    · exact h1 p hp2 q hq2 hshare

theorem oneToOne_removeTabPair {s s2 : MobileDesktopPairings} {n : Int}
    (h1 : oneToOne s) (hrem : removeTabPair s (.int n) = .ok s2) : oneToOne s2 := by
  rw [removeTabPair_int] at hrem
  have hs2 : s2 = ⟨delKey s.keyedByDesktop n, delKey s.keyedByMobile n⟩ :=
    (Except.ok.inj hrem).symm
  subst hs2
  have hmem : ∀ r ∈ storePairs (⟨delKey s.keyedByDesktop n, delKey s.keyedByMobile n⟩ :
      MobileDesktopPairings), r ∈ storePairs s := by
    intro r hr
    unfold storePairs at hr
    rcases List.mem_append.mp hr with hr | hr
    · exact List.mem_append.mpr (Or.inl (mem_delKey hr))
    · rcases List.mem_map.mp hr with ⟨q2, hq2, hqe⟩
      exact List.mem_append.mpr (Or.inr (List.mem_map.mpr ⟨q2, mem_delKey hq2, hqe⟩))
  intro p hp q hq hshare
  exact h1 p (hmem p hp) q (hmem q hq) hshare

/-- C4 (amended): every store reachable from the empty store by addPair
calls whose two integer arguments occur nowhere in the store, by
removeTabPair calls with integer argument, and by clearPairings calls,
satisfies the 1:1 invariant: any two recorded pairs sharing an
identifier are the same pair.  (The unrestricted claim is false:
addPair does not purge the stale reverse entry of an overwritten
partner, as the counterexample shows.) -/
theorem reachableFresh_oneToOne (s : MobileDesktopPairings) (h : ReachableFresh s) :
    oneToOne s := by
  induction h with
  | empty =>
      intro p hp
      simp [storePairs, emptyPairings] at hp
  | add hs hfa hfb hadd ih => exact oneToOne_addPair_fresh ih hfa hfb hadd
  | remove hs hrem ih => exact oneToOne_removeTabPair ih hrem
  | clear hs ih =>
      intro p hp
      simp [clearPairings, storePairs, emptyPairings] at hp

/-- C4 witness: the store with the single pair 1 paired with 2 is
reachable by one fresh addPair and satisfies the invariant. -/
theorem reachableFresh_oneToOne_witness : oneToOne pairedStore :=
  reachableFresh_oneToOne pairedStore
    (ReachableFresh.add (a := 1) (b := 2) ReachableFresh.empty (by decide) (by decide) rfl)
